import Mathlib

/-!
Shallow embedding of the core of the `tcolon3-ai-chat` repository:
the staged reasoning pipeline (`src/lib/firebase-admin.ts`,
`LangGraphThinkingPipeline`), the conversation memory manager
(`src/lib/conversationMemory.ts`), the document chunker
(`src/lib/knowledgeBase.ts`), the OpenRouter completion client
(`src/lib/openRouterLLM.ts`) and the web-search heuristic
(`src/app/api/chat/advanced/route.ts`, `shouldPerformWebSearch`).

External effects (LLM replies, knowledge-base lookups, web search, the
Firestore document store) are modelled as explicit environment values or
state passed through the otherwise-faithful control flow. Wall-clock
fields of a step record (`id`, `timestamp`, `duration`) are omitted:
they are `Date.now()` readings and no claim depends on them.
-/

/-! ### String utilities (JavaScript semantics) -/

/-- `prefixMatch pat s` is true when `pat` is a prefix of `s`. -/
def prefixMatch : List Char → List Char → Bool
  | [], _ => true
  | _ :: _, [] => false
  | p :: ps, c :: cs => p == c && prefixMatch ps cs

/-- `containsAt pat s`: does `pat` occur as a contiguous run in `s`?
Mirrors JavaScript `String.prototype.includes` (empty pattern matches). -/
def containsAt : List Char → List Char → Bool
  | pat, [] => prefixMatch pat []
  | pat, c :: cs => prefixMatch pat (c :: cs) || containsAt pat cs

/-- JavaScript `s.includes(pat)`. -/
def stringIncludes (s pat : String) : Bool := containsAt pat.data s.data

/-- JavaScript `s.toLowerCase()` (ASCII case folding, which is all the
source's patterns use). -/
def jsToLower (s : String) : String := ⟨s.data.map Char.toLower⟩

/-- JavaScript `s.trim()`. -/
def jsTrim (s : String) : String :=
  ⟨(s.data.dropWhile Char.isWhitespace).reverse.dropWhile Char.isWhitespace |>.reverse⟩

/-- Index clamping of JavaScript `String.prototype.slice`: a negative
index counts from the end, and the result is clamped into `[0, n]`. -/
def jsSliceIdx (n : Nat) (i : Int) : Nat :=
  if i < 0 then ((n : Int) + i).toNat.min n else i.toNat.min n

/-- JavaScript `s.slice(a, b)`. -/
def jsSlice (s : String) (a b : Int) : String :=
  let lo := jsSliceIdx s.length a
  let hi := jsSliceIdx s.length b
  ⟨(s.data.drop lo).take (hi - lo)⟩

/-! ### Document chunking (`KnowledgeBaseManager.createDocumentChunks`)

`createDocumentChunks` runs `while (startPosition < content.length)` with
`endPosition = Math.min(startPosition + 1000, content.length)` and then
`startPosition = endPosition - 200`. The loop is modelled with explicit
fuel; `none` means the source loop is still running when the fuel runs
out. `startPosition` is an `Int` because the source lets it go negative
(e.g. `content.length = 1` gives next start `-199`). Chunk fields not
derived from item position or content (`id`, `documentId`, embedding
metadata, keyword extraction, encryption of the content) are external
identifiers or effects that no claim depends on; `hasNextChunk` records
whether the source sets `nextChunkId`. -/

/-- One chunk record as built by the loop body of `createDocumentChunks`. -/
structure DocumentChunk where
  chunkIndex : Nat
  content : String
  tokenCount : Nat
  startPosition : Int
  endPosition : Int
  hasNextChunk : Bool
  deriving DecidableEq, Repr

/-- The loop body's chunk record at a given `startPosition`/`chunkIndex`. -/
def mkChunk (content : String) (startPosition : Int) (chunkIndex : Nat) : DocumentChunk :=
  let endPosition : Int := min (startPosition + 1000) (content.length : Int)
  let chunkContent := jsSlice content startPosition endPosition
  { chunkIndex := chunkIndex
    content := chunkContent
    tokenCount := (chunkContent.length + 3) / 4
    startPosition := startPosition
    endPosition := endPosition
    hasNextChunk := decide (endPosition < (content.length : Int)) }

/-- The `while (startPosition < content.length)` loop of
`createDocumentChunks`, with fuel. `none` = fuel exhausted (the source
loop has not yet exited after that many iterations). -/
def createChunksLoop (content : String) :
    Nat → Int → Nat → List DocumentChunk → Option (List DocumentChunk)
  | 0, _, _, _ => none
  | fuel + 1, startPosition, chunkIndex, acc =>
    if startPosition < (content.length : Int) then
      createChunksLoop content fuel
        (min (startPosition + 1000) (content.length : Int) - 200)
        (chunkIndex + 1) (acc ++ [mkChunk content startPosition chunkIndex])
    else some acc

/-- `createDocumentChunks(content, ·)` with fuel (window 1000, overlap 200). -/
def createDocumentChunksFuel (fuel : Nat) (content : String) : Option (List DocumentChunk) :=
  createChunksLoop content fuel 0 0 []

/-! ### The reasoning pipeline (`LangGraphThinkingPipeline`)

The LLM, the knowledge-base lookup and the web-search HTTP call are
external collaborators; a `PipelineEnv` fixes their behaviour for one
run (the reply text of each completion call, and the outcome — result
list or thrown error — of each retrieval). The `emitted` field records
the arguments of the `onStepComplete` observer calls, in call order. -/

/-- `ThinkingStep.stepType` values (`src/types/chat.ts`). The response
generation stage uses the `reasoning` kind. -/
inductive StepType
  | analysis
  | planning
  | knowledge_query
  | web_search
  | reasoning
  | synthesis
  deriving DecidableEq, Repr

/-- A `ThinkingStep` record. `id`, `timestamp` and `duration` are
`Date.now()` readings, omitted (no claim depends on them). -/
structure Step where
  stepType : StepType
  title : String
  content : String
  deriving DecidableEq, Repr

/-- A role-tagged message of the running history (`BaseMessage`). -/
inductive BaseMsg
  | human (content : String)
  | ai (content : String)
  deriving DecidableEq, Repr

/-- A knowledge-base document as consumed by `queryKnowledgeBase`:
`doc.id`, `doc.metadata.title` (possibly absent) and
`doc.originalFileName`. -/
structure KBDocument where
  id : String
  metadataTitle : Option String
  originalFileName : String
  deriving DecidableEq, Repr

/-- JavaScript `a || b` on an optional string (empty string is falsy). -/
def jsStrOr (a : Option String) (b : String) : String :=
  match a with
  | some s => if s = "" then b else s
  | none => b

/-- `doc.metadata.title || doc.originalFileName`. -/
def kbDocTitle (doc : KBDocument) : String := jsStrOr doc.metadataTitle doc.originalFileName

/-- A `KnowledgeBaseReference` (its `relevanceScore` is the hard-coded
placeholder `0.8` for every reference; omitted, no claim touches it). -/
structure KnowledgeBaseReference where
  documentId : String
  documentTitle : String
  excerpt : String
  chunkId : String
  deriving DecidableEq, Repr

/-- One web-search result as consumed by the pipeline. -/
structure WebSearchResult where
  title : String
  snippet : String
  deriving DecidableEq, Repr

/-- The external world of one pipeline run: the four completion-call
reply texts, and the outcome of each conditional retrieval
(`Except.error` = the stage's `try` block threw). -/
structure PipelineEnv where
  analysisReply : String
  planReply : String
  synthesisReply : String
  responseReply : String
  kbResult : Except String (List KBDocument)
  webResult : Except String (List WebSearchResult)

/-- The `ThinkingState` threaded through the stages, extended with
`emitted`: the sequence of steps passed to the `onStepComplete`
observer callback, in call order. -/
structure ThinkingState where
  userQuery : String
  currentStep : String
  thinkingSteps : List Step
  knowledgeBaseReferences : List KnowledgeBaseReference
  webSearchResults : List WebSearchResult
  needsKnowledgeBase : Bool
  needsWebSearch : Bool
  finalResponse : String
  messages : List BaseMsg
  emitted : List Step
  deriving DecidableEq, Repr

/-- Stage 1, `analyzeQuery`: wraps the model reply as an `analysis`
step, calls the observer, appends the reply to the history. -/
def analyzeQuery (env : PipelineEnv) (st : ThinkingState) : ThinkingState :=
  let step : Step :=
    { stepType := .analysis, title := "Query Analysis", content := env.analysisReply }
  { st with
    currentStep := "analyze_query"
    thinkingSteps := st.thinkingSteps ++ [step]
    messages := st.messages ++ [BaseMsg.ai env.analysisReply]
    emitted := st.emitted ++ [step] }

/-- Stage 2, `planApproach`: sets the retrieval flags by literal
substring matching on the model reply, calls the observer. -/
def planApproach (env : PipelineEnv) (st : ThinkingState) : ThinkingState :=
  let responseText := env.planReply
  let needsKnowledgeBase := stringIncludes responseText "KNOWLEDGE_BASE: YES"
  let needsWebSearch := stringIncludes responseText "WEB_SEARCH: YES"
  let step : Step :=
    { stepType := .planning, title := "Approach Planning", content := responseText }
  { st with
    currentStep := "plan_approach"
    thinkingSteps := st.thinkingSteps ++ [step]
    needsKnowledgeBase := needsKnowledgeBase
    needsWebSearch := needsWebSearch
    messages := st.messages ++ [BaseMsg.ai responseText]
    emitted := st.emitted ++ [step] }

/-- Stage 3a, `queryKnowledgeBase`: on success maps each document to a
reference; on a thrown error records it in the step content and leaves
an empty reference list. The source has no observer call here. -/
def queryKnowledgeBase (env : PipelineEnv) (st : ThinkingState) : ThinkingState :=
  match env.kbResult with
  | Except.ok relevantDocs =>
    let kbReferences : List KnowledgeBaseReference := relevantDocs.map fun doc =>
      { documentId := doc.id
        documentTitle := kbDocTitle doc
        excerpt := jsStrOr doc.metadataTitle ""
        chunkId := doc.id ++ "-chunk-0" }
    let step : Step :=
      { stepType := .knowledge_query
        title := "Knowledge Base Search"
        content := "Found " ++ toString relevantDocs.length ++
          " relevant documents in knowledge base:\n" ++
          String.intercalate "\n" (relevantDocs.map fun doc => "- " ++ kbDocTitle doc) }
    { st with
      currentStep := "query_knowledge_base"
      thinkingSteps := st.thinkingSteps ++ [step]
      knowledgeBaseReferences := kbReferences }
  | Except.error msg =>
    let step : Step :=
      { stepType := .knowledge_query
        title := "Knowledge Base Search"
        content := "Error querying knowledge base: " ++ msg }
    { st with
      currentStep := "query_knowledge_base"
      thinkingSteps := st.thinkingSteps ++ [step]
      knowledgeBaseReferences := [] }

/-- Stage 3b, `performWebSearch`: on success records the result count;
on a thrown error (including a non-ok search response) records it and
leaves an empty result list. The source has no observer call here. -/
def performWebSearch (env : PipelineEnv) (st : ThinkingState) : ThinkingState :=
  match env.webResult with
  | Except.ok results =>
    let step : Step :=
      { stepType := .web_search
        title := "Web Search"
        content := "Found " ++ toString results.length ++
          " web search results for current information." }
    { st with
      currentStep := "perform_web_search"
      thinkingSteps := st.thinkingSteps ++ [step]
      webSearchResults := results }
  | Except.error msg =>
    let step : Step :=
      { stepType := .web_search
        title := "Web Search"
        content := "Error performing web search: " ++ msg }
    { st with
      currentStep := "perform_web_search"
      thinkingSteps := st.thinkingSteps ++ [step]
      webSearchResults := [] }

/-- Stage 4, `synthesizeInformation`: wraps the model reply as a
`synthesis` step. The source has no observer call in this stage. -/
def synthesizeInformation (env : PipelineEnv) (st : ThinkingState) : ThinkingState :=
  let step : Step :=
    { stepType := .synthesis, title := "Information Synthesis", content := env.synthesisReply }
  { st with
    currentStep := "synthesize_information"
    thinkingSteps := st.thinkingSteps ++ [step]
    messages := st.messages ++ [BaseMsg.ai env.synthesisReply] }

/-- Stage 5, `generateResponse`: records a `reasoning`-kind step with a
static content label, stores the model reply as the final response, and
calls the observer. -/
def generateResponse (env : PipelineEnv) (st : ThinkingState) : ThinkingState :=
  let step : Step :=
    { stepType := .reasoning
      title := "Response Generation"
      content := "Generated final response based on synthesized information." }
  { st with
    currentStep := "generate_response"
    thinkingSteps := st.thinkingSteps ++ [step]
    finalResponse := env.responseReply
    messages := st.messages ++ [BaseMsg.ai env.responseReply]
    emitted := st.emitted ++ [step] }

/-- `buildGraph().invoke`: the sequential stage composition with the two
conditional retrieval stages. -/
def graphInvoke (env : PipelineEnv) (state : ThinkingState) : ThinkingState :=
  let s1 := analyzeQuery env state
  let s2 := planApproach env s1
  let s3 := if s2.needsKnowledgeBase then queryKnowledgeBase env s2 else s2
  let s4 := if s3.needsWebSearch then performWebSearch env s3 else s3
  let s5 := synthesizeInformation env s4
  generateResponse env s5

/-- The initial `ThinkingState` built by `executeThinking`. -/
def initialState (userQuery : String) (conversationHistory : List BaseMsg) : ThinkingState :=
  { userQuery := userQuery
    currentStep := ""
    thinkingSteps := []
    knowledgeBaseReferences := []
    webSearchResults := []
    needsKnowledgeBase := false
    needsWebSearch := false
    finalResponse := ""
    messages := conversationHistory
    emitted := [] }

/-- `executeThinking`: run the graph from the initial state. The
caller-facing result (`response`, `thinkingSteps`,
`knowledgeBaseReferences`, `webSearchResults`) is read off the final
state. -/
def executeThinking (env : PipelineEnv) (userQuery : String)
    (conversationHistory : List BaseMsg) : ThinkingState :=
  graphInvoke env (initialState userQuery conversationHistory)

/-- The stage-kind trace of a step list. -/
def stepTypes (steps : List Step) : List StepType := steps.map Step.stepType

/-! ### Conversation memory (`ConversationMemoryManager`, summary strategy)

The Firestore collections of one chat are modelled as a `MemStore`:
`messages` ordered by `timestamp` ascending and summary `memory`
records ordered by `createdAt` ascending (so the `orderBy createdAt
desc, limit 1` query is `getLast?`). Message decryption is an external
effect: `StoredMessage.content` is the decrypted text. Of the
`ConversationMemory` record only the fields the manager ever reads back
are kept: `content` and `messageRange.endMessageId`; the bookkeeping
fields (chatId, timestamps, token counts, compression metadata,
`startMessageId`, message count) never feed back into control flow. -/

/-- A `ChatMessage.role`. -/
inductive ChatRole
  | user
  | assistant
  | system
  | collaborator
  deriving DecidableEq, Repr

/-- A stored chat message after decryption. -/
structure StoredMessage where
  id : String
  role : ChatRole
  content : String
  deriving DecidableEq, Repr

/-- A summary `ConversationMemory` record (the read-back fields). -/
structure MemoryRecord where
  content : String
  endMessageId : String
  deriving DecidableEq, Repr

/-- The per-chat store state. -/
structure MemStore where
  messages : List StoredMessage
  memory : List MemoryRecord
  deriving DecidableEq, Repr

/-- The completion client used for summarization, fixed as a function
from the summary prompt to the reply text. -/
structure MemoryEnv where
  summarize : String → String

/-- Role mapping of context assembly: `user`/`collaborator` become a
human turn, `assistant` an AI turn, anything else is dropped. -/
def toContextMessage (m : StoredMessage) : Option BaseMsg :=
  match m.role with
  | .user => some (BaseMsg.human m.content)
  | .collaborator => some (BaseMsg.human m.content)
  | .assistant => some (BaseMsg.ai m.content)
  | .system => none

/-- The skip test of `getRecentUnsummarizedMessages`:
`if (startAfterMessageId && doc.id <= startAfterMessageId) continue` —
a JavaScript truthiness test, so an empty id disables the filter. -/
def skipsAsSummarized (startAfterMessageId : String) (m : StoredMessage) : Bool :=
  startAfterMessageId != "" && decide (m.id ≤ startAfterMessageId)

/-- `getRecentUnsummarizedMessages`. -/
def getRecentUnsummarizedMessages (store : MemStore) : List BaseMsg :=
  let startAfterMessageId :=
    match store.memory.getLast? with
    | some latestMemory => latestMemory.endMessageId
    | none => ""
  store.messages.filterMap fun m =>
    if skipsAsSummarized startAfterMessageId m then none else toContextMessage m

/-- The synthetic summary turn prepended by `getSummaryBufferContext`
when a summary record exists. -/
def summaryPrefixMessages (store : MemStore) : List BaseMsg :=
  match store.memory.getLast? with
  | some latestMemory =>
    [BaseMsg.ai ("Previous conversation summary: " ++ latestMemory.content)]
  | none => []

/-- The context list assembled by one pass of `getSummaryBufferContext`
before the budget check. -/
def contextMessages (store : MemStore) : List BaseMsg :=
  summaryPrefixMessages store ++ getRecentUnsummarizedMessages store

/-- The content text of a context message. -/
def msgContent : BaseMsg → String
  | .human c => c
  | .ai c => c

/-- `estimateTokenCount`: `Math.ceil(totalChars / 4)`. -/
def estimateTokenCount (messages : List BaseMsg) : Nat :=
  ((messages.map fun m => (msgContent m).length).sum + 3) / 4

/-- `msg._getType()` of the two context message kinds. -/
def msgTypeLabel : BaseMsg → String
  | .human _ => "human"
  | .ai _ => "ai"

/-- The `conversationText` join of `createConversationSummary`. -/
def conversationText (messages : List BaseMsg) : String :=
  String.intercalate "\n" (messages.map fun m => msgTypeLabel m ++ ": " ++ msgContent m)

/-- The summary prompt of `createConversationSummary`. -/
def summaryPromptFor (messages : List BaseMsg) : String :=
  "\n    Summarize the following conversation, preserving key information, decisions, and context that might be relevant for future messages:\n\n    "
    ++ conversationText messages
    ++ "\n\n    Create a concise but comprehensive summary that maintains important details.\n    "

/-- `createConversationSummary`: no-op on an empty message list,
otherwise persists a new summary record. Its `messageRange.endMessageId`
is written as the empty string, exactly as in the source
(`endMessageId: ''`). -/
def createConversationSummary (env : MemoryEnv) (store : MemStore)
    (messages : List BaseMsg) : MemStore :=
  if messages = [] then store
  else
    { store with
      memory := store.memory ++
        [{ content := env.summarize (summaryPromptFor messages), endMessageId := "" }] }

/-- `getSummaryBufferContext` with explicit fuel for its recursive
re-computation; `none` means the recursion is still running when the
fuel runs out. Returns the context list together with the store left
behind (summary side effects included). -/
def getSummaryBufferContextFuel (env : MemoryEnv) (maxTokens : Nat) :
    Nat → MemStore → Option (List BaseMsg × MemStore)
  | 0, _ => none
  | fuel + 1, store =>
    if estimateTokenCount (contextMessages store) > maxTokens then
      getSummaryBufferContextFuel env maxTokens fuel
        (createConversationSummary env store (getRecentUnsummarizedMessages store))
    else some (contextMessages store, store)

/-! ### OpenRouter completion client (`OpenRouterLLM.invoke`)

One call of `invoke` performs at most two HTTP requests; the
environment fixes the response each would get. `content` is the
`choices[0].message.content` field of the parsed body (used when the
status is ok), `body` the raw response text (used in error messages).
The 60-second cool-down before the retry is real time, not modelled.
The second component of the result counts HTTP requests issued. -/

/-- One HTTP response of the completions endpoint. -/
structure HttpResponse where
  status : Nat
  content : String
  body : String
  deriving DecidableEq, Repr

/-- `Response.ok`: status in the range 200–299. -/
def isOkStatus (status : Nat) : Bool := 200 ≤ status && status < 300

/-- The outer catch of `invoke` re-throws every error with this prefix. -/
def wrapClientError (msg : String) : String :=
  "Failed to get response from OpenRouter: " ++ msg

/-- `OpenRouterLLM.invoke`: `first` is the response of the initial
request, `retry` of the (at most one) retry request, which is sent only
on a 429. -/
def invokeModel (first retry : HttpResponse) : Except String String × Nat :=
  if isOkStatus first.status then (Except.ok first.content, 1)
  else if first.status = 429 then
    if isOkStatus retry.status then (Except.ok retry.content, 2)
    else
      (Except.error (wrapClientError
        ("OpenRouter API error after retry (" ++ toString retry.status ++ "): "
          ++ retry.body)), 2)
  else
    (Except.error (wrapClientError
      ("OpenRouter API error (" ++ toString first.status ++ "): " ++ first.body)), 1)

/-! ### Web-search heuristic (`shouldPerformWebSearch`) -/

/-- The real-time/factual indicator keywords. -/
def searchIndicators : List String :=
  ["latest", "recent", "news", "current", "update", "today", "this week",
   "this month", "this year", "stock price", "weather", "event", "trend",
   "breaking", "search for", "find information", "look up"]

/-- The conversational exclusion patterns. -/
def excludePatterns : List String :=
  ["your name", "who are you", "what can you do", "how are you",
   "what is your", "tell me a joke", "how do you feel"]

/-- The alternatives of the question-word regex. -/
def questionWords : List String :=
  ["how", "what", "why", "when", "where", "which", "who"]

/-- The terms of `/price|cost|value|weather|event/i`. -/
def priceTerms : List String := ["price", "cost", "value", "weather", "event"]

/-- A regex word character (`\w` = `[A-Za-z0-9_]`). -/
def isWordChar (c : Char) : Bool := c.isAlphanum || c == '_'

/-- `/^(how|what|why|when|where|which|who)\b/i` on the (lowercased)
query: some alternative is a prefix followed by a word boundary. -/
def startsWithQuestionWord (s : String) : Bool :=
  questionWords.any fun w =>
    prefixMatch w.data s.data &&
      (match s.data.drop w.length with
       | [] => true
       | c :: _ => !isWordChar c)

/-- `/\?$/.test(s.trim())`. -/
def endsWithQuestionMark (s : String) : Bool :=
  match (jsTrim s).data.getLast? with
  | some c => c == '?'
  | none => false

/-- `/[A-Z][a-z]+ [A-Z][a-z]+/` matched at the head of the character
list. Because `[a-z]+` must be followed by a space (not a lowercase
letter), taking the maximal lowercase run is equivalent to regex
backtracking here. -/
def namedEntityAt : List Char → Bool
  | [] => false
  | c :: rest =>
    c.isUpper &&
      (let lowRun := rest.takeWhile Char.isLower
       !lowRun.isEmpty &&
         (match rest.drop lowRun.length with
          | ' ' :: d :: e :: _ => d.isUpper && e.isLower
          | _ => false))

/-- `/[A-Z][a-z]+ [A-Z][a-z]+/.test(s)`. -/
def containsNamedEntityPair : List Char → Bool
  | [] => false
  | c :: cs => namedEntityAt (c :: cs) || containsNamedEntityPair cs

/-- Four consecutive digits at the head of the character list. -/
def fourDigitsAt : List Char → Bool
  | a :: b :: c :: d :: _ => a.isDigit && b.isDigit && c.isDigit && d.isDigit
  | _ => false

/-- `/\d{4}/.test(s)`. -/
def containsFourDigits : List Char → Bool
  | [] => false
  | c :: cs => fourDigitsAt (c :: cs) || containsFourDigits cs

/-- `shouldPerformWebSearch` of `src/app/api/chat/advanced/route.ts`. -/
def shouldPerformWebSearch (query : String) : Bool :=
  let lowerQuery := jsTrim (jsToLower query)
  let containsIndicator := searchIndicators.any fun ind => stringIncludes lowerQuery ind
  let isQuestion := startsWithQuestionWord lowerQuery || endsWithQuestionMark lowerQuery
  let isExcluded := excludePatterns.any fun p => stringIncludes lowerQuery p
  let hasNamedEntity := containsNamedEntityPair query.data
      || containsFourDigits query.data
      || priceTerms.any fun t => stringIncludes lowerQuery t
  (containsIndicator || isQuestion || hasNamedEntity) && !isExcluded

/-- ASCII apostrophe (code point 39). -/
def apostrophe : String := String.mk [Char.ofNat 39]

/-- The first scenario query of the spec. -/
def marsQuery : String :=
  "What" ++ apostrophe ++ "s the latest news on the Mars rover in 2025?"

/-- The second scenario query of the spec. -/
def nameQuery : String := "What" ++ apostrophe ++ "s your name?"

/-! ### Concrete instances used by witnesses and counterexamples -/

/-- A run whose planning reply requests both retrievals and whose
retrievals succeed (with no hits). -/
def envObs : PipelineEnv :=
  { analysisReply := "analysis text"
    planReply := "KNOWLEDGE_BASE: YES\nWEB_SEARCH: YES\nAPPROACH: retrieve both"
    synthesisReply := "synthesis text"
    responseReply := "final answer"
    kbResult := Except.ok []
    webResult := Except.ok [] }

/-- A run whose planning reply requests both retrievals and where both
retrieval stages throw. -/
def envErrs : PipelineEnv :=
  { analysisReply := "analysis text"
    planReply := "KNOWLEDGE_BASE: YES\nWEB_SEARCH: YES\nAPPROACH: retrieve both"
    synthesisReply := "synthesis text"
    responseReply := "final answer"
    kbResult := Except.error "kb down"
    webResult := Except.error "search down" }

/-- A run whose planning reply requests neither retrieval. -/
def envNeither : PipelineEnv :=
  { analysisReply := "analysis text"
    planReply := "KNOWLEDGE_BASE: NO\nWEB_SEARCH: NO\nAPPROACH: answer directly"
    synthesisReply := "synthesis text"
    responseReply := "final answer"
    kbResult := Except.ok []
    webResult := Except.ok [] }

/-- A summarizer returning a fixed reply. -/
def memEnvC3 : MemoryEnv := { summarize := fun _ => "summary text" }

/-- A chat whose stored messages alone exceed a budget of 0 tokens. -/
def memStoreC3 : MemStore :=
  { messages := [{ id := "m1", role := ChatRole.user, content := "hello world" }]
    memory := [] }

/-- A summarizer returning a fixed reply. -/
def memEnvC8 : MemoryEnv := { summarize := fun _ => "s" }

/-- A chat whose context estimate is far under the default 4000 budget. -/
def memStoreC8 : MemStore :=
  { messages := [{ id := "m1", role := ChatRole.user, content := "hi" }]
    memory := [] }

/-- A rate-limited first response. -/
def resp429 : HttpResponse := { status := 429, content := "", body := "rate limited" }

/-- A failed retry response. -/
def resp500 : HttpResponse := { status := 500, content := "", body := "server error" }

/-! ### Helper lemmas -/

/-- Membership of the last element. -/
lemma mem_of_getLast?_eq {α : Type} {l : List α} {a : α} (h : l.getLast? = some a) : a ∈ l := by
  have hx : a ∈ l.getLast? := by rw [h]; rfl
  obtain ⟨hne, rfl⟩ := List.mem_getLast?_eq_getLast hx
  exact List.getLast_mem hne

/-- When every persisted summary has an empty `endMessageId` (or none
exists), the skip filter of `getRecentUnsummarizedMessages` is inert and
the whole message list is mapped into context. -/
lemma getRecentUnsummarized_of_empty_end (store : MemStore)
    (hmem : ∀ r ∈ store.memory, r.endMessageId = "") :
    getRecentUnsummarizedMessages store = store.messages.filterMap toContextMessage := by
  unfold getRecentUnsummarizedMessages
  cases hl : store.memory.getLast? with
  | none => simp [skipsAsSummarized]
  | some r =>
    have hr : r.endMessageId = "" := hmem r (mem_of_getLast?_eq hl)
    simp [skipsAsSummarized, hr]

/-- The token estimate of a suffix bounds the estimate of the whole. -/
lemma estimate_append_ge (a b : List BaseMsg) :
    estimateTokenCount b ≤ estimateTokenCount (a ++ b) := by
  unfold estimateTokenCount
  apply Nat.div_le_div_right
  simp [List.map_append]

/-- `createConversationSummary` never touches the message collection. -/
lemma createSummary_messages (env : MemoryEnv) (store : MemStore) (msgs : List BaseMsg) :
    (createConversationSummary env store msgs).messages = store.messages := by
  unfold createConversationSummary
  split <;> rfl

/-- `createConversationSummary` only adds records with an empty
`endMessageId`, so the all-empty invariant is preserved. -/
lemma createSummary_memory_end (env : MemoryEnv) (store : MemStore) (msgs : List BaseMsg)
    (hmem : ∀ r ∈ store.memory, r.endMessageId = "") :
    ∀ r ∈ (createConversationSummary env store msgs).memory, r.endMessageId = "" := by
  unfold createConversationSummary
  split
  · exact hmem
  · intro r hr
    rcases List.mem_append.mp hr with h | h
    · exact hmem r h
    · simp at h
      subst h
      rfl

/-- Core of the summary-overflow divergence: if the mapped message list
alone exceeds the budget and every summary so far has an empty
`endMessageId`, one recursion step re-includes every message, appends
one more summary (again with empty `endMessageId`), and recurses — so
any amount of fuel is exhausted. -/
lemma summaryContext_nonterm (env : MemoryEnv) (maxTokens : Nat) (msgs0 : List StoredMessage)
    (hover : maxTokens < estimateTokenCount (msgs0.filterMap toContextMessage)) :
    ∀ (fuel : Nat) (store : MemStore), store.messages = msgs0 →
      (∀ r ∈ store.memory, r.endMessageId = "") →
      getSummaryBufferContextFuel env maxTokens fuel store = none := by
  intro fuel
  induction fuel with
  | zero => intro store _ _; rfl
  | succ n ih =>
    intro store hmsg hmem
    have hrec : getRecentUnsummarizedMessages store = msgs0.filterMap toContextMessage := by
      rw [getRecentUnsummarized_of_empty_end store hmem, hmsg]
    have hgt : estimateTokenCount (contextMessages store) > maxTokens := by
      have h1 : estimateTokenCount (getRecentUnsummarizedMessages store)
          ≤ estimateTokenCount (contextMessages store) := estimate_append_ge _ _
      rw [hrec] at h1
      omega
    rw [getSummaryBufferContextFuel, if_pos hgt]
    apply ih
    · rw [createSummary_messages, hmsg]
    · exact createSummary_memory_end env store _ hmem

/-- The chunking loop guard can never become false once entered, since
the next start `min(start + 1000, len) - 200` is always `< len`; hence
the loop exhausts any amount of fuel. -/
lemma createChunksLoop_none (content : String) :
    ∀ (fuel : Nat) (startPosition : Int) (chunkIndex : Nat) (acc : List DocumentChunk),
      startPosition < (content.length : Int) →
      createChunksLoop content fuel startPosition chunkIndex acc = none := by
  intro fuel
  induction fuel with
  | zero => intro s i a _; rfl
  | succ n ih =>
    intro s i a hs
    rw [createChunksLoop, if_pos hs]
    apply ih
    have h1 : min (s + 1000) ((content.length : Int)) ≤ (content.length : Int) :=
      min_le_right _ _
    omega

/-! ### Claim theorems -/

/-- Claim C1: for every pipeline run started by `executeThinking`, the
accumulated step sequence follows the fixed stage order — analysis,
then planning, then a knowledge_query step exactly when
`needsKnowledgeBase` was set by the planning reply, then a web_search
step exactly when `needsWebSearch` was set, then synthesis, then the
response-generation step (recorded with the `reasoning` step kind, per
`generateResponse` and the spec's "response_generation ('reasoning'
kind)"). Steps are appended one per stage, so no step precedes a step
of its prerequisite stage. -/
theorem c1_pipeline_stage_order (env : PipelineEnv) (q : String) (hist : List BaseMsg) :
    stepTypes (executeThinking env q hist).thinkingSteps =
      [StepType.analysis, StepType.planning]
        ++ (if stringIncludes env.planReply "KNOWLEDGE_BASE: YES" then
              [StepType.knowledge_query] else [])
        ++ (if stringIncludes env.planReply "WEB_SEARCH: YES" then
              [StepType.web_search] else [])
        ++ [StepType.synthesis, StepType.reasoning] := by
  cases hkb : stringIncludes env.planReply "KNOWLEDGE_BASE: YES" <;>
  cases hws : stringIncludes env.planReply "WEB_SEARCH: YES" <;>
  cases hk : env.kbResult <;> cases hw : env.webResult <;>
    simp [executeThinking, graphInvoke, initialState, analyzeQuery, planApproach,
      queryKnowledgeBase, performWebSearch, synthesizeInformation, generateResponse,
      stepTypes, hkb, hws, hk, hw]

/-- Claim C2: `planApproach` sets `needsKnowledgeBase` exactly when the
model reply contains the literal `KNOWLEDGE_BASE: YES` and
`needsWebSearch` exactly when it contains `WEB_SEARCH: YES`; a reply
containing neither literal leaves both flags false. -/
theorem c2_planning_flag_extraction (env : PipelineEnv) (st : ThinkingState) :
    ((planApproach env st).needsKnowledgeBase
        = stringIncludes env.planReply "KNOWLEDGE_BASE: YES")
    ∧ ((planApproach env st).needsWebSearch
        = stringIncludes env.planReply "WEB_SEARCH: YES")
    ∧ (stringIncludes env.planReply "KNOWLEDGE_BASE: YES" = false →
        stringIncludes env.planReply "WEB_SEARCH: YES" = false →
        (planApproach env st).needsKnowledgeBase = false
          ∧ (planApproach env st).needsWebSearch = false) := by
  refine ⟨rfl, rfl, fun h1 h2 => ⟨?_, ?_⟩⟩ <;> simp [planApproach, h1, h2]

/-- Witness for C2 at a reply containing neither literal. -/
theorem c2_planning_flag_extraction_witness :
    stringIncludes envNeither.planReply "KNOWLEDGE_BASE: YES" = false
    ∧ stringIncludes envNeither.planReply "WEB_SEARCH: YES" = false
    ∧ ((planApproach envNeither (initialState "q" [])).needsKnowledgeBase = false
        ∧ (planApproach envNeither (initialState "q" [])).needsWebSearch = false) :=
  ⟨by decide, by decide,
    (c2_planning_flag_extraction envNeither (initialState "q" [])).2.2 (by decide) (by decide)⟩

/-- Claim C3 (refuted — the code diverges from it): whenever the stored
messages alone put the context estimate over the budget and every
persisted summary has an empty `endMessageId` (which is the only kind
`createConversationSummary` ever writes, and holds vacuously on first
overflow), the recursive recomputation of `getSummaryBufferContext`
never terminates: the new summary's empty `endMessageId` disables the
skip filter, the unsummarized tail never shrinks, the estimate never
decreases, and every amount of fuel is exhausted. -/
theorem c3_summary_recursion_nonterminating (env : MemoryEnv) (maxTokens : Nat)
    (store : MemStore)
    (hover : maxTokens < estimateTokenCount (store.messages.filterMap toContextMessage))
    (hmem : ∀ r ∈ store.memory, r.endMessageId = "") (fuel : Nat) :
    getSummaryBufferContextFuel env maxTokens fuel store = none :=
  summaryContext_nonterm env maxTokens store.messages hover fuel store rfl hmem

/-- Witness for C3: a chat with one stored message and budget 0. -/
theorem c3_summary_recursion_nonterminating_witness :
    0 < estimateTokenCount (memStoreC3.messages.filterMap toContextMessage)
    ∧ getSummaryBufferContextFuel memEnvC3 0 7 memStoreC3 = none :=
  ⟨by decide, c3_summary_recursion_nonterminating memEnvC3 0 memStoreC3 (by decide)
    (by intro r hr; simp [memStoreC3] at hr) 7⟩

/-- Claim C4 (refuted — the code diverges from it): the chunk
adjacency/round-trip property is unattainable because
`createDocumentChunks` never returns a chunk list for a non-empty
document: already on the five-character text "hello" the loop exhausts
any amount of fuel (next start `min(start + 1000, 5) - 200` is always
below 5). -/
theorem c4_chunk_roundtrip_unattainable (fuel : Nat) :
    createDocumentChunksFuel fuel "hello" = none :=
  createChunksLoop_none "hello" fuel 0 0 [] (by decide)

/-- Claim C5 (refuted — the code diverges from it): for every non-empty
input the chunking loop does NOT terminate: `startPosition` is advanced
to `min(startPosition + 1000, content.length) - 200`, which is always
strictly below `content.length`, so the guard never becomes false and
any amount of fuel is exhausted. -/
theorem c5_chunking_loop_diverges (content : String) (h : 0 < content.length) (fuel : Nat) :
    createDocumentChunksFuel fuel content = none :=
  createChunksLoop_none content fuel 0 0 [] (by exact_mod_cast h)

/-- Witness for C5 at the one-character document "a". -/
theorem c5_chunking_loop_diverges_witness :
    0 < ("a" : String).length ∧ createDocumentChunksFuel 5 "a" = none :=
  ⟨by decide, c5_chunking_loop_diverges "a" (by decide) 5⟩

/-- Claim C6: when both retrieval stages throw, the pipeline catches
both and continues to completion — the knowledge_query step's content
describes the knowledge-base error and `knowledgeBaseReferences` is
empty, the web_search step's content describes the search error and
`webSearchResults` is empty, and the run still produces its synthesis
and response-generation steps and the final response. -/
theorem c6_retrieval_failures_nonfatal (env : PipelineEnv) (q : String) (hist : List BaseMsg)
    (e1 e2 : String)
    (hkbF : stringIncludes env.planReply "KNOWLEDGE_BASE: YES" = true)
    (hwsF : stringIncludes env.planReply "WEB_SEARCH: YES" = true)
    (hk : env.kbResult = Except.error e1)
    (hw : env.webResult = Except.error e2) :
    (executeThinking env q hist).thinkingSteps.map (fun s => (s.stepType, s.content)) =
      [(StepType.analysis, env.analysisReply),
       (StepType.planning, env.planReply),
       (StepType.knowledge_query, "Error querying knowledge base: " ++ e1),
       (StepType.web_search, "Error performing web search: " ++ e2),
       (StepType.synthesis, env.synthesisReply),
       (StepType.reasoning, "Generated final response based on synthesized information.")]
    ∧ (executeThinking env q hist).knowledgeBaseReferences = []
    ∧ (executeThinking env q hist).webSearchResults = []
    ∧ (executeThinking env q hist).finalResponse = env.responseReply := by
  simp [executeThinking, graphInvoke, initialState, analyzeQuery, planApproach,
    queryKnowledgeBase, performWebSearch, synthesizeInformation, generateResponse,
    hkbF, hwsF, hk, hw]

/-- Witness for C6 at a run where both retrievals throw. -/
theorem c6_retrieval_failures_nonfatal_witness :
    stringIncludes envErrs.planReply "KNOWLEDGE_BASE: YES" = true
    ∧ stringIncludes envErrs.planReply "WEB_SEARCH: YES" = true
    ∧ (executeThinking envErrs "q" []).knowledgeBaseReferences = []
    ∧ (executeThinking envErrs "q" []).webSearchResults = []
    ∧ (executeThinking envErrs "q" []).finalResponse = "final answer" := by
  have h := c6_retrieval_failures_nonfatal envErrs "q" [] "kb down" "search down"
    (by decide) (by decide) rfl rfl
  exact ⟨by decide, by decide, h.2.1, h.2.2.1, h.2.2.2⟩

/-- Counterexample to claim C7: in a run producing all six stages, the
observer callback receives only the analysis, planning and
response-generation steps — the knowledge_query, web_search and
synthesis steps are appended to the step list but never emitted, so the
observer does not receive every completed stage's step. -/
theorem c7_observer_counterexample :
    stepTypes (executeThinking envObs "q" []).thinkingSteps =
      [StepType.analysis, StepType.planning, StepType.knowledge_query,
       StepType.web_search, StepType.synthesis, StepType.reasoning]
    ∧ stepTypes (executeThinking envObs "q" []).emitted =
      [StepType.analysis, StepType.planning, StepType.reasoning] := by
  constructor <;> rfl

/-- Claim C7 as amended: only the analysis, planning and
response-generation stages invoke the caller-supplied observer, each
immediately upon that stage's completion, so the observer receives
exactly those three steps in stage order; the knowledge_query,
web_search and synthesis stages never call the observer. -/
theorem c7_observer_amended (env : PipelineEnv) (q : String) (hist : List BaseMsg) :
    stepTypes (executeThinking env q hist).emitted =
      [StepType.analysis, StepType.planning, StepType.reasoning] := by
  cases hkb : stringIncludes env.planReply "KNOWLEDGE_BASE: YES" <;>
  cases hws : stringIncludes env.planReply "WEB_SEARCH: YES" <;>
  cases hk : env.kbResult <;> cases hw : env.webResult <;>
    simp [executeThinking, graphInvoke, initialState, analyzeQuery, planApproach,
      queryKnowledgeBase, performWebSearch, synthesizeInformation, generateResponse,
      stepTypes, hkb, hws, hk, hw]

/-- Claim C8: under the summary strategy, when the combined context
token estimate does not exceed the budget, context retrieval returns
the assembled context and leaves the store untouched — no summary
record is created, so repeated calls on the fixed store are idempotent
and no duplicate summaries can appear. -/
theorem c8_summary_idempotent_under_budget (env : MemoryEnv) (maxTokens : Nat)
    (store : MemStore) (fuel : Nat)
    (hbudget : estimateTokenCount (contextMessages store) ≤ maxTokens) :
    getSummaryBufferContextFuel env maxTokens (fuel + 1) store
      = some (contextMessages store, store) := by
  rw [getSummaryBufferContextFuel, if_neg (by omega)]

/-- Witness for C8 at a small chat under the default 4000 budget. -/
theorem c8_summary_idempotent_under_budget_witness :
    estimateTokenCount (contextMessages memStoreC8) ≤ 4000
    ∧ getSummaryBufferContextFuel memEnvC8 4000 1 memStoreC8
        = some (contextMessages memStoreC8, memStoreC8) :=
  ⟨by decide, c8_summary_idempotent_under_budget memEnvC8 4000 memStoreC8 0 (by decide)⟩

/-- Claim C9: a 429 on the first request triggers exactly one retry
(two HTTP requests in total): on retry success the retry's content is
returned, on retry failure the surfaced error carries the retried
status and body; any other non-2xx first response surfaces an error
carrying its status and body after a single request (no retry). -/
theorem c9_rate_limit_retry (first retry : HttpResponse) :
    (first.status = 429 → isOkStatus retry.status = true →
        invokeModel first retry = (Except.ok retry.content, 2))
    ∧ (first.status = 429 → isOkStatus retry.status = false →
        invokeModel first retry =
          (Except.error (wrapClientError ("OpenRouter API error after retry ("
            ++ toString retry.status ++ "): " ++ retry.body)), 2))
    ∧ (isOkStatus first.status = false → first.status ≠ 429 →
        invokeModel first retry =
          (Except.error (wrapClientError ("OpenRouter API error ("
            ++ toString first.status ++ "): " ++ first.body)), 1)) := by
  refine ⟨fun h429 hok => ?_, fun h429 hbad => ?_, fun hbad hne => ?_⟩
  · simp [invokeModel, h429, hok, (by decide : isOkStatus 429 = false)]
  · simp [invokeModel, h429, hbad, (by decide : isOkStatus 429 = false)]
  · simp [invokeModel, hbad, hne]

/-- Witness for C9: a 429 followed by a failed (500) retry. -/
theorem c9_rate_limit_retry_witness :
    resp429.status = 429 ∧ isOkStatus resp500.status = false
    ∧ invokeModel resp429 resp500 =
        (Except.error (wrapClientError
          "OpenRouter API error after retry (500): server error"), 2) :=
  ⟨rfl, by decide, (c9_rate_limit_retry resp429 resp500).2.1 rfl (by decide)⟩

/-- Claim C10: the web-search heuristic accepts the Mars-rover query
(it contains the indicator "latest" and a four-digit year and matches
no exclude pattern) and rejects the name query (it matches the
conversational exclude pattern "your name") even though the latter is
phrased as a question. -/
theorem c10_web_search_scenarios :
    shouldPerformWebSearch marsQuery = true
    ∧ shouldPerformWebSearch nameQuery = false := by
  decide
